import Mathlib

/-!
Shallow embedding of the `flourish-form-validations` repository
(`flourish_form_validations/form_validators/*.py`).

Datetimes are modelled as a day number together with a time-of-day
(Python `datetime` compares lexicographically and `.date()` projects the
day); plain dates are `Int` day numbers.  The Django persistence layer is
modelled as an explicit read-only database value `Db`; every ORM call the
validators make (`filter`, `get`, `latest`, `last`, `first`, `order_by`)
is a pure read of that value.  Validator methods run in the monad
`M α = Db → Except PyErr α × Db`, so that both the raised exception and
the (unchanged) database are visible in the result.  `PyErr` separates
Django `ValidationError`s from other Python exceptions (`AttributeError`,
`TypeError`, `MultipleObjectsReturned`) that the code can also raise.
-/

set_option autoImplicit false

/-- Constants from `edc_constants.constants` and
`flourish_prn.action_items` used by the validators. -/
def YES : String := "Yes"

def NO : String := "No"

def POS : String := "POS"

def NOT_APPLICABLE : String := "N/A"

def NEW : String := "New"

def OTHER : String := "OTHER"

def CAREGIVEROFF_STUDY_ACTION : String := "submit-caregiveroff-study"

/-- Python `datetime`: a day number plus a time-of-day, compared
lexicographically; `.date()` projects the `day` component. -/
structure DT where
  day : Int
  tod : Nat
deriving DecidableEq, Repr

/-- Strict `<` on Python datetimes (lexicographic). -/
def dtLt (a b : DT) : Bool :=
  a.day < b.day || (a.day == b.day && a.tod < b.tod)

/-- Record of `flourish_caregiver.subjectconsent`.  The nine identity
fields compared by the TB adolescent consent validator are kept as
`Option String` (absent column value = `none`). -/
structure SubjectConsent where
  subject_identifier : String
  consent_datetime : DT
  screening_identifier : String
  first_name : Option String
  last_name : Option String
  initials : Option String
  is_literate : Option String
  dob : Option String
  is_dob_estimated : Option String
  citizen : Option String
  identity : Option String
  confirm_identity : Option String
deriving DecidableEq, Repr

/-- Record of `flourish_caregiver.maternalvisit` as the validators read
it.  `helper_hiv_status` is the HIV status that the external
`MaternalStatusHelper` (from `flourish_caregiver`, outside this
repository) computes from this visit. -/
structure MaternalVisit where
  subject_identifier : String
  report_datetime : DT
  require_crfs : String
  created : Int
  helper_hiv_status : String
deriving DecidableEq, Repr

/-- Record of the `edc_action_item` action-item model as queried by
`validate_offstudy_model`. -/
structure ActionItem where
  subject_identifier : String
  action_type_name : String
  status : String
deriving DecidableEq, Repr

/-- Record of `flourish_caregiver.arvsprepregnancy`; the filter in
`validate_against_maternal_delivery` goes through
`maternal_visit__subject_identifier`, flattened here. -/
structure ArvsPrePregnancy where
  subject_identifier : String
  art_start_date : Option Int
deriving DecidableEq, Repr

/-- The persisted records the validators read.  Lists are in primary-key
order (insertion order), which is what Django `last()` falls back to.
`consentVersions` holds the `screening_identifier`s that have a
`flourishconsentversion` record, `caregiverOffstudies` the
`subject_identifier`s with a `caregiveroffstudy` record, `ultrasounds`
the `subject_identifier`s with an ultrasound record. -/
structure Db where
  subjectConsents : List SubjectConsent
  consentVersions : List String
  caregiverOffstudies : List String
  actionItems : List ActionItem
  maternalVisits : List MaternalVisit
  ultrasounds : List String
  arvsPrePregnancies : List ArvsPrePregnancy
deriving DecidableEq, Repr

/-- Python exceptions the validators can raise: Django
`ValidationError` with a plain message (`vErr`) or a field dict
(`fieldErr`), and the non-`ValidationError` exceptions `AttributeError`,
`TypeError` and `MultipleObjectsReturned`. -/
inductive PyErr where
  | vErr : String → PyErr
  | fieldErr : String → String → PyErr
  | attrErr : String → PyErr
  | typeErr : String → PyErr
  | multiObj : String → PyErr
deriving DecidableEq, Repr

/-- Validator computations: read-only access to the database plus
exceptions.  The database component of the result makes the frame
property (no writes) expressible. -/
def M (α : Type) : Type := Db → Except PyErr α × Db

instance : Monad M where
  pure a := fun db => (Except.ok a, db)
  bind x f := fun db =>
    match x db with
    | (Except.ok a, db1) => f a db1
    | (Except.error e, db1) => (Except.error e, db1)

/-- Read a value off the database (models Django ORM reads). -/
def readDb {α : Type} (f : Db → α) : M α := fun db => (Except.ok (f db), db)

/-- Raise a Python exception. -/
def M.throw {α : Type} (e : PyErr) : M α := fun db => (Except.error e, db)

/-- Result component of running a validator computation. -/
def runRes {α : Type} (x : M α) (db : Db) : Except PyErr α := (x db).1

/-- Python truthiness of an optional string: `None` and `''` are falsy. -/
def truthyS (v : Option String) : Bool :=
  match v with
  | none => false
  | some s => s ≠ ""

/-- Django `queryset.latest('consent_datetime')` on a nonempty queryset:
the record with the greatest `consent_datetime`; `none` on an empty
queryset (the source guards with `if subject_consents:`). -/
def latestConsent : List SubjectConsent → Option SubjectConsent
  | [] => none
  | c :: cs =>
      some (cs.foldl (fun best x =>
        if dtLt best.consent_datetime x.consent_datetime then x else best) c)

/-- The consents matching `subject_identifier=self.subject_identifier`,
reduced by `latest('consent_datetime')`: the value of the
`latest_consent_obj` property as a pure function of the database. -/
def latestConsentFor (db : Db) (sid : Option String) : Option SubjectConsent :=
  latestConsent (db.subjectConsents.filter
    (fun c => some c.subject_identifier == sid))

/-- Property `FormValidatorMixin.latest_consent_obj`
(crf_form_validator.py): filter the subject consents by subject
identifier and take the latest by consent datetime, `None` when the
queryset is empty. -/
def latest_consent_obj (sid : Option String) : M (Option SubjectConsent) :=
  readDb (fun db => latestConsentFor db sid)

/-- Method `FormValidatorMixin.validate_against_consent_datetime`
(crf_form_validator.py lines 38-49).  The Python guard
`report_datetime and report_datetime < ...` short-circuits on `None`;
a `datetime` object is always truthy. -/
def validate_against_consent_datetime
    (sid : Option String) (report_datetime : Option DT) : M Unit := do
  let latest ← latest_consent_obj sid
  match latest with
  | some c =>
      match report_datetime with
      | some r =>
          if dtLt r c.consent_datetime then
            M.throw (PyErr.vErr "Report datetime cannot be before consent datetime")
          else
            pure ()
      | none => pure ()
  | none =>
      M.throw (PyErr.vErr "Please complete Caregiver Consent form before proceeding.")

/-- Method `FormValidatorMixin.validate_against_visit_datetime`
(crf_form_validator.py lines 51-55).  `report_datetime` is tested first
(short-circuit), so a missing `maternal_visit` only matters — as an
`AttributeError` — when `report_datetime` is present. -/
def validate_against_visit_datetime
    (maternal_visit : Option MaternalVisit) (report_datetime : Option DT) : M Unit :=
  match report_datetime with
  | none => pure ()
  | some r =>
      match maternal_visit with
      | none => M.throw (PyErr.attrErr "NoneType object has no attribute report_datetime")
      | some v =>
          if dtLt r v.report_datetime then
            M.throw (PyErr.vErr "Report datetime cannot be before visit datetime.")
          else
            pure ()

/-- Action items matching the `get` in `validate_offstudy_model`:
same subject identifier, the caregiver offstudy action type, status NEW. -/
def offstudyActionItems (db : Db) (sid : Option String) : List ActionItem :=
  db.actionItems.filter (fun a =>
    some a.subject_identifier == sid
      && a.action_type_name == CAREGIVEROFF_STUDY_ACTION
      && a.status == NEW)

/-- Caregiver offstudy records matching the `get` in
`validate_offstudy_model`. -/
def offstudyRecords (db : Db) (sid : Option String) : List String :=
  db.caregiverOffstudies.filter (fun s => some s == sid)

/-- Method `FormValidatorMixin.validate_offstudy_model`
(crf_form_validator.py lines 57-83).  Django `objects.get` raises
`DoesNotExist` on zero matches and `MultipleObjectsReturned` on more
than one; only `DoesNotExist` is caught by the source. -/
def validate_offstudy_model
    (sid : Option String) (maternal_visit : Option MaternalVisit) : M Unit := do
  let items ← readDb (fun db => offstudyActionItems db sid)
  match items with
  | [] => do
      let offs ← readDb (fun db => offstudyRecords db sid)
      match offs with
      | [] => pure ()
      | [_] =>
          M.throw (PyErr.vErr "Participant has been taken offstudy. Cannot capture any new data.")
      | _ => M.throw (PyErr.multiObj "caregiveroffstudy get returned more than one record")
  | [_] =>
      match maternal_visit with
      | none =>
          M.throw (PyErr.vErr "Participant is scheduled to be taken offstudy without any new data collection. Cannot capture any new data.")
      | some v =>
          if v.require_crfs == NO then
            M.throw (PyErr.vErr "Participant is scheduled to be taken offstudy without any new data collection. Cannot capture any new data.")
          else
            pure ()
  | _ => M.throw (PyErr.multiObj "action item get returned more than one record")

/-- Method `FormValidatorMixin.validate_consent_version_obj`
(crf_form_validator.py lines 85-94): when a latest consent exists, a
`flourishconsentversion` record must exist for its screening
identifier (`objects.get`; `MultipleObjectsReturned` is uncaught). -/
def validate_consent_version_obj (sid : Option String) : M Unit := do
  let latest ← latest_consent_obj sid
  match latest with
  | none => pure ()
  | some c => do
      let versions ← readDb (fun db =>
        db.consentVersions.filter (fun s => s == c.screening_identifier))
      match versions with
      | [] =>
          M.throw (PyErr.vErr "Consent version form has not been completed, kindly complete it before continuing.")
      | [_] => pure ()
      | _ => M.throw (PyErr.multiObj "flourishconsentversion get returned more than one record")

/-- Method `FormValidatorMixin.clean` (crf_form_validator.py lines
26-36): resolve `self.subject_identifier` (from the maternal visit when
one is in the cleaned data, else from the `subject_identifier` field),
run the visit-datetime ordering check when a maternal visit is present,
then the consent-version check.  Returns the resolved subject
identifier; `super().clean()` ends in the framework base, a no-op
here. -/
def formValidatorMixin_clean
    (maternal_visit : Option MaternalVisit) (report_datetime : Option DT)
    (subject_identifier : Option String) : M (Option String) :=
  match maternal_visit with
  | some v => do
      validate_against_visit_datetime maternal_visit report_datetime
      validate_consent_version_obj (some v.subject_identifier)
      pure (some v.subject_identifier)
  | none => do
      validate_consent_version_obj subject_identifier
      pure subject_identifier

/-- Cleaned data of the maternal delivery form as read by
`MaternalDeliveryFormValidator` (maternal_delivery_form_validation.py).
`arv_initiation_date` and the art start date are plain dates (`Int` day
numbers); `delivery_complications` is the m2m selection list (names of
the chosen complications). -/
structure DeliveryData where
  subject_identifier : Option String
  report_datetime : Option DT
  mode_delivery : Option String
  csection_reason : Option String
  csection_reason_other : Option String
  mode_delivery_other : Option String
  delivery_hospital : Option String
  delivery_hospital_other : Option String
  delivery_datetime : Option DT
  arv_initiation_date : Option Int
  valid_regiment_duration : Option String
  still_births : Option Int
  live_infants_to_register : Option Int
  delivery_complications : List String
  delivery_complications_other : Option String
deriving DecidableEq, Repr

/-- Substring test on character lists (helper for the Python operator
`'c-section' in mode_delivery`). -/
def listContainsSub (pat : List Char) : List Char → Bool
  | [] => pat.isPrefixOf ([] : List Char)
  | c :: cs => pat.isPrefixOf (c :: cs) || listContainsSub pat cs

/-- Python `pat in s` for strings. -/
def strContains (s pat : String) : Bool := listContainsSub pat.data s.data

/-- Modelled from the `edc_form_validators.FormValidator` base class
(external framework): `required_if` / `required_if_true` raise a
field-keyed `ValidationError` when the condition holds and the required
field is missing, and the inverse error when the condition fails and
the field was filled. -/
def required_if_gen (condition provided : Bool)
    (fieldName requiredMsg notRequiredMsg : String) : M Unit :=
  if condition && !provided then M.throw (PyErr.fieldErr fieldName requiredMsg)
  else if !condition && provided then M.throw (PyErr.fieldErr fieldName notRequiredMsg)
  else pure ()

/-- Modelled from `edc_form_validators.FormValidator.validate_other_specify`
(external framework): the `_other` field is required exactly when the
main field holds the `OTHER` response, and forbidden when the (truthy)
main field holds another response. -/
def validate_other_specify_b (fieldIsOther fieldTruthy otherTruthy : Bool)
    (otherField : String) : M Unit :=
  if fieldIsOther && !otherTruthy then
    M.throw (PyErr.fieldErr otherField "This field is required.")
  else if fieldTruthy && !fieldIsOther && otherTruthy then
    M.throw (PyErr.fieldErr otherField "This field is not required.")
  else pure ()

/-- Shorthand for `validate_other_specify` on an `Option String`
field. -/
def validate_other_specify_gen (fieldVal otherVal : Option String)
    (otherField : String) : M Unit :=
  validate_other_specify_b (fieldVal == some OTHER) (truthyS fieldVal)
    (truthyS otherVal) otherField

/-- Modelled from `edc_form_validators` m2m helper
`m2m_single_selection_if` (external framework): each listed selection,
when chosen, must be the only chosen item. -/
def m2m_single_selection_if (selections m2m : List String) : M Unit :=
  if selections.any (fun s => m2m.contains s) && decide (m2m.length > 1) then
    M.throw (PyErr.vErr "Invalid combination. Only one selection allowed.")
  else pure ()

/-- Modelled from `edc_form_validators` m2m helper `m2m_other_specify`
(external framework): the `_other` field is required exactly when one
of the listed responses is among the chosen m2m items. -/
def m2m_other_specify_gen (responses m2m : List String)
    (fieldOther : Option String) (otherFieldName : String) : M Unit :=
  if responses.any (fun r => m2m.contains r) && !truthyS fieldOther then
    M.throw (PyErr.fieldErr otherFieldName "This field is required.")
  else if !responses.any (fun r => m2m.contains r) && truthyS fieldOther then
    M.throw (PyErr.fieldErr otherFieldName "This field is not required.")
  else pure ()

/-- Django `order_by('-created').first()` over maternal visits:
the visit with the greatest `created`, `none` on an empty queryset. -/
def latestVisit : List MaternalVisit → Option MaternalVisit
  | [] => none
  | v :: vs =>
      some (vs.foldl (fun best x => if best.created < x.created then x else best) v)

/-- The latest maternal visit of a subject as a pure function of the
database. -/
def latestVisitFor (db : Db) (sid : Option String) : Option MaternalVisit :=
  latestVisit (db.maternalVisits.filter (fun v => some v.subject_identifier == sid))

/-- Property `MaternalDeliveryFormValidator.maternal_status_helper`
(maternal_delivery_form_validation.py lines 151-162), reduced to the
HIV status it is used for: take the subject's latest visit by
`created`; with no prior visit raise the complete-previous-visits
error.  `MaternalStatusHelper` itself lives in `flourish_caregiver`
(outside this repository); the status it would compute is carried on
the visit record as `helper_hiv_status`. -/
def maternal_status_helper_hiv_status (sid : Option String) : M String := do
  let v ← readDb (fun db => latestVisitFor db sid)
  match v with
  | some visit => pure visit.helper_hiv_status
  | none =>
      M.throw (PyErr.vErr "Please complete previous visits before filling in Maternal Labour Delivery Form.")

/-- Method `MaternalDeliveryFormValidator.validate_ultrasound`
(maternal_delivery_form_validation.py lines 53-59): an ultrasound
record must exist for the subject. -/
def validate_ultrasound (sid : Option String) : M Unit := do
  let us ← readDb (fun db => db.ultrasounds.filter (fun s => some s == sid))
  if us.isEmpty then M.throw (PyErr.vErr "Please complete ultrasound form first")
  else pure ()

/-- Method `MaternalDeliveryFormValidator.validate_valid_regime_hiv_pos_only`
(maternal_delivery_form_validation.py lines 77-115).  In the
HIV-positive branch the delivery check evaluates
`delivery_datetime.date() - relativedelta(weeks=4) < arv_initiation_date`:
`.date()` on a missing delivery datetime is an `AttributeError`, and
comparing a date with `None` (initiation date missing) a `TypeError`
— the preceding `required_if` makes the latter unreachable. -/
def validate_valid_regime_hiv_pos_only (d : DeliveryData) : M Unit := do
  let status ← maternal_status_helper_hiv_status d.subject_identifier
  if status == POS then
    if d.valid_regiment_duration != some YES then
      M.throw (PyErr.fieldErr "valid_regiment_duration"
        "Participant is HIV+ valid regimen duration should be YES. Please correct.")
    else do
      required_if_gen (d.valid_regiment_duration == some YES)
        d.arv_initiation_date.isSome "arv_initiation_date"
        "You indicated participant was on valid regimen, please give a valid arv initiation date."
        "This field is not required."
      if d.valid_regiment_duration == some YES then
        match d.delivery_datetime with
        | none => M.throw (PyErr.attrErr "NoneType object has no attribute date")
        | some dd =>
            match d.arv_initiation_date with
            | none => M.throw (PyErr.typeErr "comparison of date with NoneType")
            | some init =>
                if dd.day - 28 < init then
                  M.throw (PyErr.fieldErr "delivery_datetime"
                    "You indicated that the mother was on REGIMEN for a valid duration, but delivery date is within 4weeks of art initiation date. Please correct.")
                else pure ()
      else pure ()
  else
    if d.valid_regiment_duration != some NOT_APPLICABLE then
      M.throw (PyErr.fieldErr "valid_regiment_duration"
        ("Participants HIV status is " ++ status ++ ", valid regimen duration should be Not Applicable."))
    else if d.arv_initiation_date.isSome then
      M.throw (PyErr.fieldErr "arv_initiation_date"
        ("Participants HIV status is " ++ status ++ ", arv initiation date should not filled."))
    else pure ()

/-- Method `MaternalDeliveryFormValidator.validate_live_births_still_birth`
(maternal_delivery_form_validation.py lines 117-131).  Python `None == 0`
is `False`, so an absent count never triggers either branch. -/
def validate_live_births_still_birth (sb lb : Option Int) : M Unit :=
  if sb == some 0 && lb != some 1 then
    M.throw (PyErr.fieldErr "live_infants_to_register"
      "If still birth is 0 then live birth should be 1.")
  else if sb == some 1 && lb != some 0 then
    M.throw (PyErr.fieldErr "still_births"
      "If live births is 1 then still birth should be 0.")
  else pure ()

/-- The `arvsprepregnancy` records matching the `get` in
`validate_against_maternal_delivery`. -/
def arvsPreFor (db : Db) (sid : Option String) : List ArvsPrePregnancy :=
  db.arvsPrePregnancies.filter (fun p => some p.subject_identifier == sid)

/-- Method `MaternalDeliveryFormValidator.validate_against_maternal_delivery`
(maternal_delivery_form_validation.py lines 164-177): when an
`ArvsPrePregnancy` record exists (`objects.get`; `DoesNotExist` is
caught and skipped, `MultipleObjectsReturned` is not), the submitted
`arv_initiation_date` must equal its `art_start_date`. -/
def validate_against_maternal_delivery
    (sid : Option String) (init : Option Int) : M Unit := do
  let ps ← readDb (fun db => arvsPreFor db sid)
  match ps with
  | [] => pure ()
  | [p] =>
      if p.art_start_date != init then
        M.throw (PyErr.fieldErr "arv_initiation_date"
          ("Date not corresponding with the date from Arv Pregnancy CRF, the date should be "
            ++ toString p.art_start_date ++ " "))
      else pure ()
  | _ => M.throw (PyErr.multiObj "arvsprepregnancy get returned more than one record")

/-- Method `MaternalDeliveryFormValidator.validate_other`
(maternal_delivery_form_validation.py lines 133-149), unrolled over its
fixed field dictionary and m2m selections. -/
def validate_other_delivery (d : DeliveryData) : M Unit := do
  validate_other_specify_gen d.delivery_hospital d.delivery_hospital_other
    "delivery_hospital_other"
  validate_other_specify_gen d.mode_delivery d.mode_delivery_other
    "mode_delivery_other"
  validate_other_specify_gen d.csection_reason d.csection_reason_other
    "csection_reason_other"
  m2m_single_selection_if ["delivery_comp_other", "delivery_comp_none"]
    d.delivery_complications
  m2m_other_specify_gen ["delivery_comp_other"] d.delivery_complications
    d.delivery_complications_other "delivery_complications_other"

/-- Method `MaternalDeliveryFormValidator.clean`
(maternal_delivery_form_validation.py lines 34-51): set
`self.subject_identifier`, run the shared mixin clean (the delivery
form's cleaned data has no `maternal_visit` key), check the report
datetime against the consent, require `csection_reason` when the mode
of delivery mentions a c-section, then the cross-record and per-field
checks in source order. -/
def maternalDelivery_clean (d : DeliveryData) : M Unit := do
  let sid ← formValidatorMixin_clean none d.report_datetime d.subject_identifier
  validate_against_consent_datetime sid d.report_datetime
  let condition :=
    match d.mode_delivery with
    | none => false
    | some md => strContains md "c-section"
  required_if_gen condition (truthyS d.csection_reason) "csection_reason"
    "This field is required." "This field is not required."
  validate_against_maternal_delivery d.subject_identifier d.arv_initiation_date
  validate_ultrasound d.subject_identifier
  validate_valid_regime_hiv_pos_only d
  validate_live_births_still_birth d.still_births d.live_infants_to_register
  validate_other_delivery d

/-- Cleaned data of the TB adolescent consent form
(tb_adol_consent_form_validator.py). -/
structure TbAdolData where
  subject_identifier : Option String
  first_name : Option String
  last_name : Option String
  initials : Option String
  is_literate : Option String
  dob : Option String
  is_dob_estimated : Option String
  citizen : Option String
  identity : Option String
  confirm_identity : Option String
deriving DecidableEq, Repr

/-- The nine identity fields compared by
`TbAdolConsentFormValidator.consent_validation`, in source order. -/
def tbConsentFields : List String :=
  ["first_name", "last_name", "initials", "is_literate", "dob",
   "is_dob_estimated", "citizen", "identity", "confirm_identity"]

/-- Python `flourish_subject_consent.__dict__.get(field, None)` for the
nine identity fields. -/
def consentFieldGet (c : SubjectConsent) (f : String) : Option String :=
  if f == "first_name" then c.first_name
  else if f == "last_name" then c.last_name
  else if f == "initials" then c.initials
  else if f == "is_literate" then c.is_literate
  else if f == "dob" then c.dob
  else if f == "is_dob_estimated" then c.is_dob_estimated
  else if f == "citizen" then c.citizen
  else if f == "identity" then c.identity
  else if f == "confirm_identity" then c.confirm_identity
  else none

/-- Python `self.cleaned_data.get(field, None)` for the nine identity
fields of the TB adolescent consent form. -/
def tbFieldGet (d : TbAdolData) (f : String) : Option String :=
  if f == "first_name" then d.first_name
  else if f == "last_name" then d.last_name
  else if f == "initials" then d.initials
  else if f == "is_literate" then d.is_literate
  else if f == "dob" then d.dob
  else if f == "is_dob_estimated" then d.is_dob_estimated
  else if f == "citizen" then d.citizen
  else if f == "identity" then d.identity
  else if f == "confirm_identity" then d.confirm_identity
  else none

/-- Django `filter(subject_identifier=...).last()` over the subject
consents: `None` on an empty queryset, never a `DoesNotExist`. -/
def consentLastFor (db : Db) (sid : Option String) : Option SubjectConsent :=
  (db.subjectConsents.filter (fun c => some c.subject_identifier == sid)).getLast?

/-- Body of one iteration of the field loop in
`TbAdolConsentFormValidator.consent_validation` (lines 60-72).  The
first statement dereferences `flourish_subject_consent.__dict__`, so a
`None` consent is an `AttributeError` before the `if not
flourish_subject_consent` guard (which is therefore dead code, a
Python object being always truthy). -/
def tbFieldCheck (c : Option SubjectConsent) (d : TbAdolData) (f : String) : M Unit :=
  match c with
  | none => M.throw (PyErr.attrErr "NoneType object has no attribute __dict__")
  | some consent =>
      let fv := consentFieldGet consent f
      let tv := tbFieldGet d f
      if !truthyS tv then M.throw (PyErr.fieldErr f "Please fill the value")
      else if tv != fv then
        M.throw (PyErr.fieldErr f "TB Consent value not the same as the flourish consent")
      else pure ()

/-- The `for field in fields` loop of `consent_validation`. -/
def tbLoop (c : Option SubjectConsent) (d : TbAdolData) : List String → M Unit
  | [] => pure ()
  | f :: fs => do
      tbFieldCheck c d f
      tbLoop c d fs

/-- Method `TbAdolConsentFormValidator.consent_validation`
(tb_adol_consent_form_validator.py lines 23-72).  The
`except DoesNotExist` branch of the source is unreachable:
`filter(...).last()` returns `None` on an empty queryset instead of
raising, so the loop runs with a `None` consent. -/
def consent_validation (d : TbAdolData) : M Unit := do
  let last ← readDb (fun db => consentLastFor db d.subject_identifier)
  tbLoop last d tbConsentFields

/-- Method `TbAdolConsentFormValidator.clean`
(tb_adol_consent_form_validator.py lines 18-21).  This class derives
from the framework-provided `edc_form_validators.FormValidatorMixin`,
not from this repository's mixin, so `super().clean()` performs none of
the repository's shared base checks and is a no-op here. -/
def tbAdolConsent_clean (d : TbAdolData) : M Unit := do
  consent_validation d

/-- Cleaned data of the caregiver referral follow-up form
(caregiver_referral_fu_form_validator.py).  `emo_support_type` is an
m2m selection list; each `*_other` companion comes from the
`validate_other_specify` default naming. -/
structure ReferralFUData where
  maternal_visit : Option MaternalVisit
  report_datetime : Option DT
  referred_to : Option String
  referred_to_other : Option String
  support_ref_decline_reason : Option String
  support_ref_decline_reason_other : Option String
  no_support_reason : Option String
  no_support_reason_other : Option String
  emo_support_type : List String
  emo_support_type_other : Option String
  emo_health_improved : Option String
  emo_health_improved_other : Option String
  percieve_counselor : Option String
  percieve_counselor_other : Option String
  attended_referral : Option String
  emo_support : Option String
  satisfied_counselor : Option String
  additional_counseling : Option String
deriving DecidableEq, Repr

/-- Method `CaregiverReferralFUFormValidator.clean`
(caregiver_referral_fu_form_validator.py).  The first statement
dereferences `cleaned_data.get('maternal_visit')`, an `AttributeError`
when the visit is missing; then the shared mixin clean runs, followed
by the form's own conditional-requirement rules in source order.  The
`validate_other_specify` loop also covers the m2m field
`emo_support_type`, whose queryset value never equals `OTHER`. -/
def caregiverReferralFU_clean (d : ReferralFUData) : M Unit := do
  match d.maternal_visit with
  | none => M.throw (PyErr.attrErr "NoneType object has no attribute subject_identifier")
  | some _ => do
      let _sid ← formValidatorMixin_clean d.maternal_visit d.report_datetime none
      validate_other_specify_gen d.referred_to d.referred_to_other
        "referred_to_other"
      validate_other_specify_gen d.support_ref_decline_reason
        d.support_ref_decline_reason_other "support_ref_decline_reason_other"
      validate_other_specify_gen d.no_support_reason d.no_support_reason_other
        "no_support_reason_other"
      validate_other_specify_b false (!d.emo_support_type.isEmpty)
        (truthyS d.emo_support_type_other) "emo_support_type_other"
      validate_other_specify_gen d.emo_health_improved
        d.emo_health_improved_other "emo_health_improved_other"
      validate_other_specify_gen d.percieve_counselor
        d.percieve_counselor_other "percieve_counselor_other"
      required_if_gen (d.attended_referral == some NO)
        (truthyS d.support_ref_decline_reason) "support_ref_decline_reason"
        "This field is required." "This field is not required."
      required_if_gen (d.attended_referral == some YES)
        (truthyS d.emo_support) "emo_support"
        "This field is required." "This field is not required."
      required_if_gen (d.emo_support == some NO)
        (truthyS d.no_support_reason) "no_support_reason"
        "This field is required." "This field is not required."
      required_if_gen (d.emo_support == some YES)
        (!d.emo_support_type.isEmpty) "emo_support_type"
        "This field is required." "This field is not required."
      m2m_other_specify_gen [OTHER] d.emo_support_type
        d.emo_support_type_other "emo_support_type_other"
      required_if_gen (d.emo_support == some YES)
        (truthyS d.emo_health_improved) "emo_health_improved"
        "This field is required." "This field is not required."
      required_if_gen (d.emo_support == some YES)
        (truthyS d.percieve_counselor) "percieve_counselor"
        "This field is required." "This field is not required."
      required_if_gen (d.emo_support == some YES)
        (truthyS d.satisfied_counselor) "satisfied_counselor"
        "This field is required." "This field is not required."
      required_if_gen (d.satisfied_counselor == some NO)
        (truthyS d.additional_counseling) "additional_counseling"
        "This field is required." "This field is not required."

/-- A computation preserves the database: it performs no create,
update or delete on the persisted records. -/
def preservesDb {α : Type} (x : M α) : Prop := ∀ db, (x db).2 = db

/-- Concrete subject consent record used by witnesses and
counterexamples. -/
def consentW : SubjectConsent :=
  ⟨"S1", ⟨5, 0⟩, "SC1", some "Jane", some "Doe", some "JD", some "Yes",
    some "1990-01-01", some "No", some "Yes", some "111", some "111"⟩

/-- Concrete maternal visit (CRFs required, HIV-positive status from the
helper) used by witnesses and counterexamples. -/
def visitW : MaternalVisit := ⟨"S1", ⟨5, 0⟩, "Yes", 1, "POS"⟩

/-- Database with a consent, its version record, a visit and an
ultrasound for subject S1. -/
def dbW : Db := ⟨[consentW], ["SC1"], [], [], [visitW], ["S1"], []⟩

/-- Database like `dbW` but with a caregiver offstudy record for S1 and
no NEW offstudy action item. -/
def dbOffW : Db := ⟨[consentW], ["SC1"], ["S1"], [], [visitW], ["S1"], []⟩

/-- Database with a consent for S1 but no consent version record. -/
def dbNoVersionW : Db := ⟨[consentW], [], [], [], [], [], []⟩

/-- Empty database: no records at all. -/
def dbEmptyW : Db := ⟨[], [], [], [], [], [], []⟩

/-- TB adolescent consent submission matching `consentW` on all nine
identity fields. -/
def tbDataW : TbAdolData :=
  ⟨some "S1", some "Jane", some "Doe", some "JD", some "Yes",
    some "1990-01-01", some "No", some "Yes", some "111", some "111"⟩

/-- Maternal delivery submission with a valid-regimen duration of YES,
an ARV initiation date, and a delivery exactly 28 days later. -/
def deliveryBoundaryW : DeliveryData :=
  ⟨some "S1", some ⟨10, 0⟩, none, none, none, none, none, none,
    some ⟨128, 0⟩, some 100, some "Yes", none, none, [], none⟩

/-- Maternal delivery submission like `deliveryBoundaryW` but with the
`delivery_datetime` missing. -/
def deliveryNoDtW : DeliveryData :=
  ⟨some "S1", some ⟨10, 0⟩, none, none, none, none, none, none,
    none, some 100, some "Yes", none, none, [], none⟩

/-- Database like `dbW` but with a NEW caregiver offstudy action item
for S1 and no offstudy record. -/
def dbSchedW : Db :=
  ⟨[consentW], ["SC1"], [], [⟨"S1", CAREGIVEROFF_STUDY_ACTION, NEW⟩],
    [visitW], [], []⟩

/-- Caregiver referral follow-up submission with only the maternal
visit set. -/
def referralW : ReferralFUData :=
  ⟨some visitW, none, none, none, none, none, none, none, [], none,
    none, none, none, none, none, none, none, none⟩

theorem run_bind {α β : Type} (x : M α) (f : α → M β) (db : Db) :
    (x >>= f) db =
      match x db with
      | (Except.ok a, db1) => f a db1
      | (Except.error e, db1) => (Except.error e, db1) := rfl

theorem run_pure {α : Type} (a : α) (db : Db) :
    (pure a : M α) db = (Except.ok a, db) := rfl

theorem run_readDb {α : Type} (f : Db → α) (db : Db) :
    readDb f db = (Except.ok (f db), db) := rfl

theorem run_throw {α : Type} (e : PyErr) (db : Db) :
    (M.throw e : M α) db = (Except.error e, db) := rfl

theorem preservesDb_pure {α : Type} (a : α) : preservesDb (pure a : M α) :=
  fun _ => rfl

theorem preservesDb_readDb {α : Type} (f : Db → α) : preservesDb (readDb f) :=
  fun _ => rfl

theorem preservesDb_throw {α : Type} (e : PyErr) :
    preservesDb (M.throw e : M α) :=
  fun _ => rfl

theorem preservesDb_bind {α β : Type} {x : M α} {f : α → M β}
    (hx : preservesDb x) (hf : ∀ a, preservesDb (f a)) :
    preservesDb (x >>= f) := by
  intro db
  rw [run_bind]
  rcases h : x db with ⟨r, db1⟩
  have hdb : db1 = db := by
    have := hx db
    rw [h] at this
    exact this
  cases r with
  | ok a => rw [hdb]; exact hf a db
  | error e => exact hdb

theorem preservesDb_ite {α : Type} (c : Prop) [Decidable c] {x y : M α}
    (hx : preservesDb x) (hy : preservesDb y) :
    preservesDb (if c then x else y) := by
  by_cases h : c
  · simpa [h] using hx
  · simpa [h] using hy

theorem pres_validate_against_consent_datetime (sid : Option String)
    (rdt : Option DT) :
    preservesDb (validate_against_consent_datetime sid rdt) := by
  unfold validate_against_consent_datetime latest_consent_obj
  refine preservesDb_bind (preservesDb_readDb _) (fun a => ?_)
  cases a with
  | none => exact preservesDb_throw _
  | some c =>
    cases rdt with
    | none => exact preservesDb_pure _
    | some r => exact preservesDb_ite _ (preservesDb_throw _) (preservesDb_pure _)

theorem pres_validate_against_visit_datetime (mv : Option MaternalVisit)
    (rdt : Option DT) :
    preservesDb (validate_against_visit_datetime mv rdt) := by
  unfold validate_against_visit_datetime
  cases rdt with
  | none => exact preservesDb_pure _
  | some r =>
    cases mv with
    | none => exact preservesDb_throw _
    | some v => exact preservesDb_ite _ (preservesDb_throw _) (preservesDb_pure _)

theorem pres_validate_offstudy_model (sid : Option String)
    (mv : Option MaternalVisit) :
    preservesDb (validate_offstudy_model sid mv) := by
  unfold validate_offstudy_model
  refine preservesDb_bind (preservesDb_readDb _) (fun items => ?_)
  match items with
  | [] =>
    refine preservesDb_bind (preservesDb_readDb _) (fun offs => ?_)
    match offs with
    | [] => exact preservesDb_pure _
    | [_] => exact preservesDb_throw _
    | _ :: _ :: _ => exact preservesDb_throw _
  | [_] =>
    cases mv with
    | none => exact preservesDb_throw _
    | some v => exact preservesDb_ite _ (preservesDb_throw _) (preservesDb_pure _)
  | _ :: _ :: _ => exact preservesDb_throw _

theorem pres_validate_consent_version_obj (sid : Option String) :
    preservesDb (validate_consent_version_obj sid) := by
  unfold validate_consent_version_obj latest_consent_obj
  refine preservesDb_bind (preservesDb_readDb _) (fun a => ?_)
  cases a with
  | none => exact preservesDb_pure _
  | some c =>
    refine preservesDb_bind (preservesDb_readDb _) (fun versions => ?_)
    match versions with
    | [] => exact preservesDb_throw _
    | [_] => exact preservesDb_pure _
    | _ :: _ :: _ => exact preservesDb_throw _

theorem pres_formValidatorMixin_clean (mv : Option MaternalVisit)
    (rdt : Option DT) (sid0 : Option String) :
    preservesDb (formValidatorMixin_clean mv rdt sid0) := by
  unfold formValidatorMixin_clean
  cases mv with
  | none =>
    exact preservesDb_bind (pres_validate_consent_version_obj _)
      (fun _ => preservesDb_pure _)
  | some v =>
    refine preservesDb_bind (pres_validate_against_visit_datetime _ _) (fun _ => ?_)
    exact preservesDb_bind (pres_validate_consent_version_obj _)
      (fun _ => preservesDb_pure _)

theorem pres_required_if_gen (c p : Bool) (f m1 m2 : String) :
    preservesDb (required_if_gen c p f m1 m2) := by
  unfold required_if_gen
  exact preservesDb_ite _ (preservesDb_throw _)
    (preservesDb_ite _ (preservesDb_throw _) (preservesDb_pure _))

theorem pres_validate_other_specify_b (a b c : Bool) (f : String) :
    preservesDb (validate_other_specify_b a b c f) := by
  unfold validate_other_specify_b
  exact preservesDb_ite _ (preservesDb_throw _)
    (preservesDb_ite _ (preservesDb_throw _) (preservesDb_pure _))

theorem pres_validate_other_specify_gen (fv ov : Option String) (f : String) :
    preservesDb (validate_other_specify_gen fv ov f) := by
  unfold validate_other_specify_gen
  exact pres_validate_other_specify_b _ _ _ _

theorem pres_m2m_single_selection_if (sels m2m : List String) :
    preservesDb (m2m_single_selection_if sels m2m) := by
  unfold m2m_single_selection_if
  exact preservesDb_ite _ (preservesDb_throw _) (preservesDb_pure _)

theorem pres_m2m_other_specify_gen (rs m2m : List String)
    (fo : Option String) (n : String) :
    preservesDb (m2m_other_specify_gen rs m2m fo n) := by
  unfold m2m_other_specify_gen
  exact preservesDb_ite _ (preservesDb_throw _)
    (preservesDb_ite _ (preservesDb_throw _) (preservesDb_pure _))

theorem pres_maternal_status_helper_hiv_status (sid : Option String) :
    preservesDb (maternal_status_helper_hiv_status sid) := by
  unfold maternal_status_helper_hiv_status
  refine preservesDb_bind (preservesDb_readDb _) (fun v => ?_)
  cases v with
  | none => exact preservesDb_throw _
  | some visit => exact preservesDb_pure _

theorem pres_validate_ultrasound (sid : Option String) :
    preservesDb (validate_ultrasound sid) := by
  unfold validate_ultrasound
  refine preservesDb_bind (preservesDb_readDb _) (fun us => ?_)
  exact preservesDb_ite _ (preservesDb_throw _) (preservesDb_pure _)

theorem pres_validate_valid_regime_hiv_pos_only (d : DeliveryData) :
    preservesDb (validate_valid_regime_hiv_pos_only d) := by
  unfold validate_valid_regime_hiv_pos_only
  refine preservesDb_bind (pres_maternal_status_helper_hiv_status _)
    (fun status => ?_)
  refine preservesDb_ite _ ?_ ?_
  · refine preservesDb_ite _ (preservesDb_throw _) ?_
    refine preservesDb_bind (pres_required_if_gen _ _ _ _ _) (fun _ => ?_)
    refine preservesDb_ite _ ?_ (preservesDb_pure _)
    cases d.delivery_datetime with
    | none => exact preservesDb_throw _
    | some dd =>
      cases d.arv_initiation_date with
      | none => exact preservesDb_throw _
      | some init =>
        exact preservesDb_ite _ (preservesDb_throw _) (preservesDb_pure _)
  · exact preservesDb_ite _ (preservesDb_throw _)
      (preservesDb_ite _ (preservesDb_throw _) (preservesDb_pure _))

theorem pres_validate_live_births_still_birth (sb lb : Option Int) :
    preservesDb (validate_live_births_still_birth sb lb) := by
  unfold validate_live_births_still_birth
  exact preservesDb_ite _ (preservesDb_throw _)
    (preservesDb_ite _ (preservesDb_throw _) (preservesDb_pure _))

theorem pres_validate_against_maternal_delivery (sid : Option String)
    (init : Option Int) :
    preservesDb (validate_against_maternal_delivery sid init) := by
  unfold validate_against_maternal_delivery
  refine preservesDb_bind (preservesDb_readDb _) (fun ps => ?_)
  match ps with
  | [] => exact preservesDb_pure _
  | [p] => exact preservesDb_ite _ (preservesDb_throw _) (preservesDb_pure _)
  | _ :: _ :: _ => exact preservesDb_throw _

theorem pres_validate_other_delivery (d : DeliveryData) :
    preservesDb (validate_other_delivery d) := by
  unfold validate_other_delivery
  refine preservesDb_bind (pres_validate_other_specify_gen _ _ _) (fun _ => ?_)
  refine preservesDb_bind (pres_validate_other_specify_gen _ _ _) (fun _ => ?_)
  refine preservesDb_bind (pres_validate_other_specify_gen _ _ _) (fun _ => ?_)
  refine preservesDb_bind (pres_m2m_single_selection_if _ _) (fun _ => ?_)
  exact pres_m2m_other_specify_gen _ _ _ _

theorem pres_maternalDelivery_clean (d : DeliveryData) :
    preservesDb (maternalDelivery_clean d) := by
  unfold maternalDelivery_clean
  refine preservesDb_bind (pres_formValidatorMixin_clean _ _ _) (fun sid => ?_)
  refine preservesDb_bind (pres_validate_against_consent_datetime _ _) (fun _ => ?_)
  refine preservesDb_bind (pres_required_if_gen _ _ _ _ _) (fun _ => ?_)
  refine preservesDb_bind (pres_validate_against_maternal_delivery _ _) (fun _ => ?_)
  refine preservesDb_bind (pres_validate_ultrasound _) (fun _ => ?_)
  refine preservesDb_bind (pres_validate_valid_regime_hiv_pos_only _) (fun _ => ?_)
  refine preservesDb_bind (pres_validate_live_births_still_birth _ _) (fun _ => ?_)
  exact pres_validate_other_delivery _

theorem pres_tbFieldCheck (c : Option SubjectConsent) (d : TbAdolData)
    (f : String) :
    preservesDb (tbFieldCheck c d f) := by
  unfold tbFieldCheck
  cases c with
  | none => exact preservesDb_throw _
  | some consent =>
    exact preservesDb_ite _ (preservesDb_throw _)
      (preservesDb_ite _ (preservesDb_throw _) (preservesDb_pure _))

theorem pres_tbLoop (c : Option SubjectConsent) (d : TbAdolData)
    (fs : List String) :
    preservesDb (tbLoop c d fs) := by
  induction fs with
  | nil => exact preservesDb_pure _
  | cons f fs ih =>
    unfold tbLoop
    exact preservesDb_bind (pres_tbFieldCheck _ _ _) (fun _ => ih)

theorem pres_consent_validation (d : TbAdolData) :
    preservesDb (consent_validation d) := by
  unfold consent_validation
  exact preservesDb_bind (preservesDb_readDb _) (fun last => pres_tbLoop _ _ _)

theorem pres_tbAdolConsent_clean (d : TbAdolData) :
    preservesDb (tbAdolConsent_clean d) := by
  unfold tbAdolConsent_clean
  exact pres_consent_validation _

theorem pres_caregiverReferralFU_clean (d : ReferralFUData) :
    preservesDb (caregiverReferralFU_clean d) := by
  unfold caregiverReferralFU_clean
  cases d.maternal_visit with
  | none => exact preservesDb_throw _
  | some v =>
    refine preservesDb_bind (pres_formValidatorMixin_clean _ _ _) (fun _ => ?_)
    refine preservesDb_bind (pres_validate_other_specify_gen _ _ _) (fun _ => ?_)
    refine preservesDb_bind (pres_validate_other_specify_gen _ _ _) (fun _ => ?_)
    refine preservesDb_bind (pres_validate_other_specify_gen _ _ _) (fun _ => ?_)
    refine preservesDb_bind (pres_validate_other_specify_b _ _ _ _) (fun _ => ?_)
    refine preservesDb_bind (pres_validate_other_specify_gen _ _ _) (fun _ => ?_)
    refine preservesDb_bind (pres_validate_other_specify_gen _ _ _) (fun _ => ?_)
    refine preservesDb_bind (pres_required_if_gen _ _ _ _ _) (fun _ => ?_)
    refine preservesDb_bind (pres_required_if_gen _ _ _ _ _) (fun _ => ?_)
    refine preservesDb_bind (pres_required_if_gen _ _ _ _ _) (fun _ => ?_)
    refine preservesDb_bind (pres_required_if_gen _ _ _ _ _) (fun _ => ?_)
    refine preservesDb_bind (pres_m2m_other_specify_gen _ _ _ _) (fun _ => ?_)
    refine preservesDb_bind (pres_required_if_gen _ _ _ _ _) (fun _ => ?_)
    refine preservesDb_bind (pres_required_if_gen _ _ _ _ _) (fun _ => ?_)
    refine preservesDb_bind (pres_required_if_gen _ _ _ _ _) (fun _ => ?_)
    exact pres_required_if_gen _ _ _ _ _

/-- C4: `validate_live_births_still_birth` raises a `ValidationError`
on `live_infants_to_register` when `still_births` equals 0 and
`live_infants_to_register` is not 1, raises a `ValidationError` on
`still_births` when `still_births` equals 1 and
`live_infants_to_register` is not 0, and accepts every other
combination of the two fields. -/
theorem C4_live_births_still_birth (sb lb : Option Int) (db : Db) :
    (runRes (validate_live_births_still_birth sb lb) db
        = Except.error (PyErr.fieldErr "live_infants_to_register"
            "If still birth is 0 then live birth should be 1.")
      ↔ sb = some 0 ∧ lb ≠ some 1)
    ∧ (runRes (validate_live_births_still_birth sb lb) db
        = Except.error (PyErr.fieldErr "still_births"
            "If live births is 1 then still birth should be 0.")
      ↔ sb = some 1 ∧ lb ≠ some 0)
    ∧ (runRes (validate_live_births_still_birth sb lb) db = Except.ok ()
      ↔ ¬(sb = some 0 ∧ lb ≠ some 1) ∧ ¬(sb = some 1 ∧ lb ≠ some 0)) := by
  unfold runRes validate_live_births_still_birth
  split
  next h =>
    simp only [Bool.and_eq_true, beq_iff_eq, bne_iff_ne] at h
    simp [M.throw, h]
  next h =>
    split
    next h2 =>
      simp only [Bool.and_eq_true, beq_iff_eq, bne_iff_ne] at h h2
      simp [M.throw, h, h2]
      try tauto
    next h2 =>
      simp only [Bool.and_eq_true, beq_iff_eq, bne_iff_ne] at h h2
      simp [M.throw, h, h2]
      try tauto

/-- C1: `validate_against_consent_datetime` raises the
before-consent-datetime `ValidationError` exactly when a subject
consent record exists for the subject identifier, `report_datetime` is
given, and it is strictly before the `consent_datetime` of the latest
consent; when no subject consent record exists it always raises the
`ValidationError` asking the user to complete the Caregiver Consent
form first; and in every remaining case it accepts. -/
theorem C1_consent_datetime_check (db : Db) (sid : Option String)
    (rdt : Option DT) :
    (runRes (validate_against_consent_datetime sid rdt) db
        = Except.error (PyErr.vErr "Report datetime cannot be before consent datetime")
      ↔ ∃ c r, latestConsentFor db sid = some c ∧ rdt = some r
          ∧ dtLt r c.consent_datetime = true)
    ∧ (latestConsentFor db sid = none →
        runRes (validate_against_consent_datetime sid rdt) db
          = Except.error (PyErr.vErr "Please complete Caregiver Consent form before proceeding."))
    ∧ (∀ c, latestConsentFor db sid = some c →
        (∀ r, rdt = some r → dtLt r c.consent_datetime = false) →
        runRes (validate_against_consent_datetime sid rdt) db = Except.ok ()) := by
  unfold runRes validate_against_consent_datetime latest_consent_obj
  cases hl : latestConsentFor db sid with
  | none =>
    simp [run_bind, run_readDb, hl, M.throw]
  | some c =>
    cases rdt with
    | none =>
      simp [run_bind, run_readDb, run_pure, hl]
    | some r =>
      by_cases hlt : dtLt r c.consent_datetime = true
      · simp [run_bind, run_readDb, run_throw, hl, hlt, M.throw]
      · simp only [Bool.not_eq_true] at hlt
        simp [run_bind, run_readDb, run_pure, hl, hlt, M.throw]

/-- C1 witness: on a database holding a consent for S1 taken on day 5,
a report datetime on day 3 triggers the before-consent error. -/
theorem C1_witness :
    runRes (validate_against_consent_datetime (some "S1") (some ⟨3, 0⟩)) dbW
      = Except.error (PyErr.vErr "Report datetime cannot be before consent datetime") :=
  (C1_consent_datetime_check dbW (some "S1") (some ⟨3, 0⟩)).1.mpr
    ⟨consentW, ⟨3, 0⟩, by decide, rfl, by decide⟩

/-- C10: with an absent `report_datetime`, `validate_against_visit_datetime`
never raises and `validate_against_consent_datetime` skips the ordering
check, though it still raises the complete-consent error when no
consent record exists for the subject identifier. -/
theorem C10_absent_report_datetime (db : Db) (sid : Option String)
    (mv : Option MaternalVisit) :
    runRes (validate_against_visit_datetime mv none) db = Except.ok ()
    ∧ (latestConsentFor db sid ≠ none →
        runRes (validate_against_consent_datetime sid none) db = Except.ok ())
    ∧ (latestConsentFor db sid = none →
        runRes (validate_against_consent_datetime sid none) db
          = Except.error (PyErr.vErr "Please complete Caregiver Consent form before proceeding.")) := by
  refine ⟨rfl, ?_, ?_⟩
  · intro h
    unfold runRes validate_against_consent_datetime latest_consent_obj
    cases hl : latestConsentFor db sid with
    | none => exact absurd hl h
    | some c => simp [run_bind, run_readDb, run_pure, hl]
  · intro h
    unfold runRes validate_against_consent_datetime latest_consent_obj
    simp [run_bind, run_readDb, h, M.throw]

/-- C10 witness: instantiation on the concrete databases `dbW` (consent
present) and `dbEmptyW` (no consent). -/
theorem C10_witness :
    runRes (validate_against_consent_datetime (some "S1") none) dbW = Except.ok ()
    ∧ runRes (validate_against_consent_datetime (some "S1") none) dbEmptyW
        = Except.error (PyErr.vErr "Please complete Caregiver Consent form before proceeding.") :=
  ⟨(C10_absent_report_datetime dbW (some "S1") none).2.1 (by decide),
   (C10_absent_report_datetime dbEmptyW (some "S1") none).2.2 (by decide)⟩

/-- C6: when exactly one `ArvsPrePregnancy` record exists for the
subject identifier, `validate_against_maternal_delivery` accepts
exactly when the submitted `arv_initiation_date` equals the record's
`art_start_date` and otherwise raises the `ValidationError` on
`arv_initiation_date`; when no record exists the check is skipped and
raises nothing. -/
theorem C6_arvs_pre_pregnancy_check (db : Db) (sid : Option String)
    (init : Option Int) :
    (arvsPreFor db sid = [] →
      runRes (validate_against_maternal_delivery sid init) db = Except.ok ())
    ∧ (∀ p, arvsPreFor db sid = [p] →
        runRes (validate_against_maternal_delivery sid init) db =
          (if p.art_start_date = init then Except.ok ()
           else Except.error (PyErr.fieldErr "arv_initiation_date"
             ("Date not corresponding with the date from Arv Pregnancy CRF, the date should be "
               ++ toString p.art_start_date ++ " ")))) := by
  constructor
  · intro h
    unfold runRes validate_against_maternal_delivery
    simp [run_bind, run_readDb, run_pure, h]
  · intro p hp
    unfold runRes validate_against_maternal_delivery
    by_cases he : p.art_start_date = init
    · simp [run_bind, run_readDb, run_pure, hp, he]
    · simp [run_bind, run_readDb, run_throw, hp, he, M.throw]

/-- C6 witness: a database with a single ArvsPrePregnancy record for S1
starting on day 100 accepts a matching initiation date and rejects a
mismatched one. -/
theorem C6_witness :
    runRes (validate_against_maternal_delivery (some "S1") (some 100))
        ⟨[], [], [], [], [], [], [⟨"S1", some 100⟩]⟩ = Except.ok ()
    ∧ runRes (validate_against_maternal_delivery (some "S1") (some 101))
        ⟨[], [], [], [], [], [], [⟨"S1", some 100⟩]⟩
        = Except.error (PyErr.fieldErr "arv_initiation_date"
            ("Date not corresponding with the date from Arv Pregnancy CRF, the date should be "
              ++ toString (some 100 : Option Int) ++ " ")) := by
  constructor
  · exact ((C6_arvs_pre_pregnancy_check ⟨[], [], [], [], [], [], [⟨"S1", some 100⟩]⟩
      (some "S1") (some 100)).2 ⟨"S1", some 100⟩ (by decide)).trans (by simp)
  · exact ((C6_arvs_pre_pregnancy_check ⟨[], [], [], [], [], [], [⟨"S1", some 100⟩]⟩
      (some "S1") (some 101)).2 ⟨"S1", some 100⟩ (by decide)).trans (by simp)

/-- C7: no validator run creates, modifies or deletes any persisted
record: for every database and every submission, each leaf validator's
clean returns the database unchanged, whether it accepts or raises. -/
theorem C7_validators_preserve_db (db : Db) (dd : DeliveryData)
    (td : TbAdolData) (rd : ReferralFUData) :
    (maternalDelivery_clean dd db).2 = db
    ∧ (tbAdolConsent_clean td db).2 = db
    ∧ (caregiverReferralFU_clean rd db).2 = db :=
  ⟨pres_maternalDelivery_clean dd db, pres_tbAdolConsent_clean td db,
   pres_caregiverReferralFU_clean rd db⟩

/-- C5: when no Flourish subject consent record exists for the subject
identifier, `TbAdolConsentFormValidator.consent_validation` does not
raise the claimed `ValidationError`: `filter(...).last()` returns
`None` without raising `DoesNotExist`, and the first loop iteration
dereferences `None.__dict__`, an `AttributeError`. -/
theorem C5_no_consent_attribute_error :
    runRes (tbAdolConsent_clean tbDataW) dbEmptyW
      = Except.error (PyErr.attrErr "NoneType object has no attribute __dict__") := rfl

/-- C2 counterexample: on a database where a caregiver offstudy record
exists for S1 (and no NEW offstudy action item), the shared base
validator's clean accepts the submission — it never invokes
`validate_offstudy_model`, which on the same database would have
rejected it. -/
theorem C2_counterexample :
    runRes (formValidatorMixin_clean (some visitW) (some ⟨10, 0⟩) none) dbOffW
      = Except.ok (some "S1")
    ∧ runRes (validate_offstudy_model (some "S1") (some visitW)) dbOffW
      = Except.error (PyErr.vErr "Participant has been taken offstudy. Cannot capture any new data.") :=
  ⟨rfl, rfl⟩

/-- C2 (amended): `validate_offstudy_model`, when invoked, rejects with
the taken-offstudy error when an offstudy record exists and no NEW
offstudy action item, rejects with the scheduled-offstudy error when a
NEW offstudy action item exists and there is no maternal visit or the
visit's `require_crfs` is NO, and otherwise accepts — but the shared
base clean never invokes it. -/
theorem C2_offstudy_model_behavior (db : Db) (sid : Option String)
    (mv : Option MaternalVisit)
    (hA : (offstudyActionItems db sid).length ≤ 1)
    (hO : (offstudyRecords db sid).length ≤ 1) :
    (offstudyActionItems db sid = [] → offstudyRecords db sid = [] →
      runRes (validate_offstudy_model sid mv) db = Except.ok ())
    ∧ (offstudyActionItems db sid = [] → offstudyRecords db sid ≠ [] →
        runRes (validate_offstudy_model sid mv) db
          = Except.error (PyErr.vErr "Participant has been taken offstudy. Cannot capture any new data."))
    ∧ (offstudyActionItems db sid ≠ [] →
        (mv = none ∨ ∃ v, mv = some v ∧ v.require_crfs = NO) →
        runRes (validate_offstudy_model sid mv) db
          = Except.error (PyErr.vErr "Participant is scheduled to be taken offstudy without any new data collection. Cannot capture any new data."))
    ∧ (offstudyActionItems db sid ≠ [] → ∀ v, mv = some v → v.require_crfs ≠ NO →
        runRes (validate_offstudy_model sid mv) db = Except.ok ()) := by
  unfold runRes validate_offstudy_model
  rcases hAi : offstudyActionItems db sid with _ | ⟨a, _ | ⟨b, t⟩⟩
  · rcases hOi : offstudyRecords db sid with _ | ⟨o, _ | ⟨p, u⟩⟩
    · simp [run_bind, run_readDb, run_pure, hAi, hOi]
    · simp [run_bind, run_readDb, run_throw, hAi, hOi, M.throw]
    · rw [hOi] at hO
      simp at hO
  · constructor
    · intro h
      exact absurd h (List.cons_ne_nil a [])
    constructor
    · intro h
      exact absurd h (List.cons_ne_nil a [])
    constructor
    · intro _ hmv
      rcases hmv with rfl | ⟨v, rfl, hv⟩
      · simp [run_bind, run_readDb, run_throw, hAi, M.throw]
      · simp [run_bind, run_readDb, run_throw, hAi, hv, M.throw]
    · rintro _ v rfl hv
      simp [run_bind, run_readDb, run_pure, hAi, hv, M.throw]
  · rw [hAi] at hA
    simp at hA

/-- C2 witness: with a NEW caregiver offstudy action item for S1 and no
maternal visit, `validate_offstudy_model` rejects with the
scheduled-offstudy error. -/
theorem C2_witness :
    runRes (validate_offstudy_model (some "S1") none) dbSchedW
      = Except.error (PyErr.vErr "Participant is scheduled to be taken offstudy without any new data collection. Cannot capture any new data.") :=
  (C2_offstudy_model_behavior dbSchedW (some "S1") none (by decide)
    (by decide)).2.2.1 (by decide) (Or.inl rfl)

/-- C3 counterexample: with HIV status POS, valid regimen duration YES,
ARV initiation on day 100 and delivery exactly 28 days (4 weeks) later
on day 128, `validate_valid_regime_hiv_pos_only` accepts, although the
delivery date is not MORE than 4 weeks after the initiation date. -/
theorem C3_counterexample :
    runRes (validate_valid_regime_hiv_pos_only deliveryBoundaryW) dbW
      = Except.ok () := rfl

/-- C3 (amended): when HIV status is POS, validation raises unless
`valid_regiment_duration` is YES, an `arv_initiation_date` is given,
and the delivery date is AT LEAST 4 weeks (28 days) after the
initiation date — the `delivery_datetime` error fires exactly when
`delivery_date - 28 < arv_initiation_date`; when HIV status is not
POS, validation raises unless `valid_regiment_duration` is
NOT_APPLICABLE and `arv_initiation_date` is absent. -/
theorem C3_valid_regime_characterization (db : Db) (d : DeliveryData)
    (v : MaternalVisit)
    (hv : latestVisitFor db d.subject_identifier = some v) :
    (v.helper_hiv_status = POS →
      (d.valid_regiment_duration ≠ some YES →
        runRes (validate_valid_regime_hiv_pos_only d) db
          = Except.error (PyErr.fieldErr "valid_regiment_duration"
              "Participant is HIV+ valid regimen duration should be YES. Please correct."))
      ∧ (d.valid_regiment_duration = some YES → d.arv_initiation_date = none →
        runRes (validate_valid_regime_hiv_pos_only d) db
          = Except.error (PyErr.fieldErr "arv_initiation_date"
              "You indicated participant was on valid regimen, please give a valid arv initiation date."))
      ∧ (∀ i dd, d.valid_regiment_duration = some YES →
          d.arv_initiation_date = some i → d.delivery_datetime = some dd →
          runRes (validate_valid_regime_hiv_pos_only d) db
            = (if dd.day - 28 < i then
                Except.error (PyErr.fieldErr "delivery_datetime"
                  "You indicated that the mother was on REGIMEN for a valid duration, but delivery date is within 4weeks of art initiation date. Please correct.")
               else Except.ok ())))
    ∧ (v.helper_hiv_status ≠ POS →
      (d.valid_regiment_duration ≠ some NOT_APPLICABLE →
        runRes (validate_valid_regime_hiv_pos_only d) db
          = Except.error (PyErr.fieldErr "valid_regiment_duration"
              ("Participants HIV status is " ++ v.helper_hiv_status
                ++ ", valid regimen duration should be Not Applicable.")))
      ∧ (d.valid_regiment_duration = some NOT_APPLICABLE →
        runRes (validate_valid_regime_hiv_pos_only d) db
          = (if d.arv_initiation_date.isSome then
              Except.error (PyErr.fieldErr "arv_initiation_date"
                ("Participants HIV status is " ++ v.helper_hiv_status
                  ++ ", arv initiation date should not filled."))
             else Except.ok ()))) := by
  unfold runRes validate_valid_regime_hiv_pos_only
    maternal_status_helper_hiv_status required_if_gen
  constructor
  · intro hpos
    refine ⟨?_, ?_, ?_⟩
    · intro hd
      simp [run_bind, run_readDb, run_pure, run_throw, hv, hpos, hd, M.throw]
    · intro hd hinit
      simp [run_bind, run_readDb, run_pure, run_throw, hv, hpos, hd, hinit, M.throw]
    · intro i dd hd hinit hdel
      by_cases hlt : dd.day - 28 < i
      · simp [run_bind, run_readDb, run_pure, run_throw, hv, hpos, hd, hinit,
          hdel, hlt, M.throw]
      · simp [run_bind, run_readDb, run_pure, run_throw, hv, hpos, hd, hinit,
          hdel, hlt, M.throw]
  · intro hnp
    constructor
    · intro hd
      simp [run_bind, run_readDb, run_pure, run_throw, hv, hnp, hd, M.throw]
    · intro hd
      by_cases hinit : d.arv_initiation_date.isSome
      · simp [run_bind, run_readDb, run_pure, run_throw, hv, hnp, hd, hinit, M.throw]
      · simp [run_bind, run_readDb, run_pure, run_throw, hv, hnp, hd, hinit, M.throw]

/-- C3 witness: an HIV-positive participant with a valid regimen
duration that is not YES is rejected on `valid_regiment_duration`. -/
theorem C3_witness :
    runRes (validate_valid_regime_hiv_pos_only
        { deliveryBoundaryW with valid_regiment_duration := none }) dbW
      = Except.error (PyErr.fieldErr "valid_regiment_duration"
          "Participant is HIV+ valid regimen duration should be YES. Please correct.") :=
  ((C3_valid_regime_characterization dbW
      { deliveryBoundaryW with valid_regiment_duration := none } visitW
      (by decide)).1 (by decide)).1 (by decide)

/-- C8 counterexample: on a database holding a consent for S1 but no
consent version record, the repository's shared base clean rejects
with the consent-version error, while `TbAdolConsentFormValidator`'s
clean — which derives from the framework mixin, not the repository's —
accepts a matching submission without performing that base check. -/
theorem C8_counterexample :
    runRes (tbAdolConsent_clean tbDataW) dbNoVersionW = Except.ok ()
    ∧ runRes (formValidatorMixin_clean none none (some "S1")) dbNoVersionW
      = Except.error (PyErr.vErr "Consent version form has not been completed, kindly complete it before continuing.") :=
  ⟨rfl, rfl⟩

/-- C8 (amended): `MaternalDeliveryFormValidator` and
`CaregiverReferralFUFormValidator` derive from the repository's
`FormValidatorMixin` and their clean performs the shared base checks —
in particular, both reject with the consent-version error when the
latest consent has no consent version record; `TbAdolConsentFormValidator`
derives from the framework's mixin instead and skips those checks. -/
theorem C8_mixin_base_checks (db : Db) (dd : DeliveryData)
    (rd : ReferralFUData) (c c2 : SubjectConsent) (v : MaternalVisit)
    (hdd : latestConsentFor db dd.subject_identifier = some c)
    (hver : db.consentVersions.filter (fun s => s == c.screening_identifier) = [])
    (hmv : rd.maternal_visit = some v)
    (hrdt : rd.report_datetime = none)
    (hc2 : latestConsentFor db (some v.subject_identifier) = some c2)
    (hver2 : db.consentVersions.filter (fun s => s == c2.screening_identifier) = []) :
    runRes (maternalDelivery_clean dd) db
      = Except.error (PyErr.vErr "Consent version form has not been completed, kindly complete it before continuing.")
    ∧ runRes (caregiverReferralFU_clean rd) db
      = Except.error (PyErr.vErr "Consent version form has not been completed, kindly complete it before continuing.") := by
  constructor
  · unfold runRes maternalDelivery_clean formValidatorMixin_clean
      validate_consent_version_obj latest_consent_obj
    simp [run_bind, run_readDb, run_throw, hdd, hver, M.throw]
  · unfold runRes caregiverReferralFU_clean formValidatorMixin_clean
      validate_consent_version_obj latest_consent_obj
      validate_against_visit_datetime
    simp [run_bind, run_readDb, run_throw, hmv, hrdt, hc2, hver2, M.throw]

/-- C8 witness: instantiation on `dbNoVersionW` for both validators
derived from the repository mixin. -/
theorem C8_witness :
    runRes (maternalDelivery_clean deliveryBoundaryW) dbNoVersionW
      = Except.error (PyErr.vErr "Consent version form has not been completed, kindly complete it before continuing.")
    ∧ runRes (caregiverReferralFU_clean referralW) dbNoVersionW
      = Except.error (PyErr.vErr "Consent version form has not been completed, kindly complete it before continuing.") :=
  C8_mixin_base_checks dbNoVersionW deliveryBoundaryW referralW consentW
    consentW visitW (by decide) rfl rfl rfl (by decide) rfl

/-- C9 counterexample: `MaternalDeliveryFormValidator.clean` on an
HIV-positive participant with a YES regimen duration, an initiation
date and a missing `delivery_datetime` escapes with an
`AttributeError` (`None.date()`), not a `ValidationError`. -/
theorem C9_counterexample :
    runRes (maternalDelivery_clean deliveryNoDtW) dbW
      = Except.error (PyErr.attrErr "NoneType object has no attribute date") := rfl

theorem tbLoop_error_is_field_error (c : SubjectConsent) (d : TbAdolData)
    (fs : List String) :
    ∀ db e, runRes (tbLoop (some c) d fs) db = Except.error e →
      ∃ f m, e = PyErr.fieldErr f m := by
  induction fs with
  | nil =>
    intro db e h
    simp [tbLoop, runRes, run_pure] at h
  | cons f fs ih =>
    intro db e h
    unfold tbLoop runRes at h
    rw [run_bind] at h
    rcases hc : tbFieldCheck (some c) d f db with ⟨r, db1⟩
    rw [hc] at h
    cases r with
    | ok a =>
      exact ih db1 e h
    | error e1 =>
      simp at h
      subst h
      simp only [tbFieldCheck] at hc
      split at hc
      · rw [run_throw] at hc
        exact ⟨f, "Please fill the value", by cases hc; rfl⟩
      · split at hc
        · rw [run_throw] at hc
          exact ⟨f, "TB Consent value not the same as the flourish consent",
            by cases hc; rfl⟩
        · rw [run_pure] at hc
          simp at hc

/-- C9 (amended): a validator clean either completes normally or
raises, but not every escaping exception is a `ValidationError`:
`AttributeError` escapes from the TB adolescent consent validation
when no Flourish consent exists and from the maternal delivery
HIV-positive path when `delivery_datetime` is absent; when a Flourish
consent record does exist, the TB adolescent clean raises only
field-keyed `ValidationError`s. -/
theorem C9_tb_adol_validation_error_only (db : Db) (d : TbAdolData)
    (c : SubjectConsent)
    (hc : consentLastFor db d.subject_identifier = some c) :
    ∀ e, runRes (tbAdolConsent_clean d) db = Except.error e →
      ∃ f m, e = PyErr.fieldErr f m := by
  intro e h
  unfold tbAdolConsent_clean consent_validation runRes at h
  rw [run_bind, run_readDb] at h
  rw [hc] at h
  exact tbLoop_error_is_field_error c d tbConsentFields db e h

/-- C9 witness: a TB adolescent submission with a mismatching first
name, against a database that does hold a Flourish consent, errors with
a field-keyed ValidationError. -/
theorem C9_witness :
    ∃ f m, PyErr.fieldErr "first_name" "TB Consent value not the same as the flourish consent"
      = PyErr.fieldErr f m :=
  C9_tb_adol_validation_error_only dbW
    { tbDataW with first_name := some "Janet" } consentW (by decide)
    (PyErr.fieldErr "first_name" "TB Consent value not the same as the flourish consent") rfl
